import Mathlib

/-!
Shallow embedding of the concurrency-and-scheduling core of the
ankiconnect-server repository: the sync coordinator (`_sync`, `sync`,
`fullSync` in `app/core.py`), the integrity check (`checkDatabase`),
the modification tracker (`check_and_update_modified`), the request
bridge (`handler`), and the timer trigger policy plus background sync
wrapper of the HTTP layer (`app/server.py`).

Collection-handle effects are modelled as a trace of `ColCall` events
and the behaviour of the external collection (the result of
`sync_collection` and of `full_upload_or_download`) is a parameter
(`ColBehavior`), so a single run of the embedded coordinator records
exactly which handle methods the source code would invoke and in which
order.
-/

namespace App

/-- Log levels used by the `logging` calls in the source. -/
inductive LogLevel where
  | debug
  | info
  | error
deriving DecidableEq, Repr

/-- Python exception values raised in this code base. Every constructor
models a subclass of `Exception` (the code never raises
`BaseException`-only classes), carrying the exception message:
`syncError` is anki's network/protocol `SyncError`, `exception` a plain
`Exception(...)`, `valueError` a `ValueError(...)`. -/
inductive PyExc where
  | syncError (msg : String)
  | exception (msg : String)
  | valueError (msg : String)
deriving DecidableEq, Repr

/-- Whether an exception is a synchronization-class (network/protocol)
failure in the sense of the spec's error taxonomy. -/
def PyExc.isSyncClass : PyExc → Bool
  | .syncError _ => true
  | .exception _ => false
  | .valueError _ => false

/-- The message carried by an exception (what `str(e)` interpolates). -/
def PyExc.message : PyExc → String
  | .syncError m => m
  | .exception m => m
  | .valueError m => m

/-- anki's `SyncOutput.ChangesRequired` enum values. -/
inductive ChangesRequired where
  | NO_CHANGES
  | NORMAL_SYNC
  | FULL_SYNC
  | FULL_DOWNLOAD
  | FULL_UPLOAD
deriving DecidableEq, Repr

/-- Protobuf enum value name, as produced by
`anki.sync.SyncOutput.ChangesRequired.Name(out.required)`. -/
def ChangesRequired.pbName : ChangesRequired → String
  | .NO_CHANGES => "NO_CHANGES"
  | .NORMAL_SYNC => "NORMAL_SYNC"
  | .FULL_SYNC => "FULL_SYNC"
  | .FULL_DOWNLOAD => "FULL_DOWNLOAD"
  | .FULL_UPLOAD => "FULL_UPLOAD"

/-- The negotiation result returned by `col.sync_collection`.
`newEndpoint` is a protobuf string field whose empty value is falsy in
Python, matching `if out.new_endpoint:` in the source. -/
structure SyncOutput where
  required : ChangesRequired
  newEndpoint : String
  serverMessage : String
  serverMediaUsn : Int
deriving DecidableEq, Repr

/-- Collection-handle methods invoked by `_sync` (beyond reading state). -/
inductive ColCall where
  | syncCollection
  | closeForFullSync
  | fullUploadOrDownload
  | reopen
deriving DecidableEq, Repr

/-- Configuration values consumed by `core.py` (`SYNC_KEY`,
`SYNC_ENDPOINT`; both may be unset). -/
structure Config where
  syncKey : Option String
  syncEndpoint : Option String
deriving DecidableEq, Repr

/-- Mutable attributes of the `AnkiConnectBridge` instance that the
claims depend on. `currentSyncUrl` models the `_current_sync_url`
attribute (class default `None`). `lastMod` models the `last_mod`
attribute that `check_and_update_modified` reads and writes: it is
`none` while no attribute named exactly `last_mod` exists on the
instance (the class only defines `_last_mod`, a different name, and
`__init__` sets neither). -/
structure BridgeState where
  currentSyncUrl : Option String
  lastMod : Option Int
deriving DecidableEq, Repr

/-- Bridge state right after `AnkiConnectBridge.__init__`: no sticky
redirect recorded, and no `last_mod` attribute present on the instance. -/
def initialBridge : BridgeState := { currentSyncUrl := none, lastMod := none }

/-- anki's `SyncAuth` tuple as constructed by `sync_auth`. -/
structure SyncAuth where
  hkey : String
  endpoint : Option String
  ioTimeoutSecs : Nat
deriving DecidableEq, Repr

/-- Python `a or b` on an optional string: `None` and `""` are falsy. -/
def pyOrStr (a : Option String) (b : Option String) : Option String :=
  match a with
  | none => b
  | some s => if s = "" then b else some s

/-- Embedding of `AnkiConnectBridge.sync_auth` (core.py:62-69): raises
when `SYNC_KEY` is unset, otherwise builds the auth tuple whose endpoint
is `self._current_sync_url or SYNC_ENDPOINT` with a 10 second timeout. -/
def sync_auth (cfg : Config) (st : BridgeState) : Except PyExc SyncAuth :=
  match cfg.syncKey with
  | none => .error (.exception "sync: key not configured")
  | some hkey =>
      .ok { hkey := hkey
            endpoint := pyOrStr st.currentSyncUrl cfg.syncEndpoint
            ioTimeoutSecs := 10 }

/-- Behaviour of the external collection handle during one `_sync` run:
what `sync_collection` returns or raises, and whether
`full_upload_or_download` returns or raises when invoked. -/
structure ColBehavior where
  syncResult : Except PyExc SyncOutput
  fullTransfer : Except PyExc Unit
deriving Repr

/-- Result of one run of the embedded `_sync`: the value or exception,
the ordered trace of collection-handle calls, and the bridge state
after the run. -/
structure SyncRun where
  result : Except PyExc Unit
  calls : List ColCall
  state : BridgeState
deriving Repr

/-- Embedding of `AnkiConnectBridge._sync` (core.py:71-100). Builds the
auth (raising first if the key is unset), calls `sync_collection`,
records a sticky redirect when the output carries a truthy new endpoint,
then: accepted statuses (`NO_CHANGES`, `NORMAL_SYNC`) return; otherwise
with an explicit `download`/`upload` mode the handle is closed, the full
transfer attempted, and the handle reopened in a `finally` block; with
no explicit mode an `Exception("could not sync status ... - use
fullSync")` is raised. -/
def _sync (cfg : Config) (st : BridgeState) (mode : Option String)
    (beh : ColBehavior) : SyncRun :=
  match sync_auth cfg st with
  | .error e => { result := .error e, calls := [], state := st }
  | .ok _ =>
    match beh.syncResult with
    | .error e => { result := .error e, calls := [.syncCollection], state := st }
    | .ok out =>
      let st1 := if out.newEndpoint ≠ "" then
          { st with currentSyncUrl := some out.newEndpoint } else st
      if out.required = .NO_CHANGES ∨ out.required = .NORMAL_SYNC then
        { result := .ok (), calls := [.syncCollection], state := st1 }
      else if mode = some "download" ∨ mode = some "upload" then
        match beh.fullTransfer with
        | .ok _ =>
          { result := .ok ()
            calls := [.syncCollection, .closeForFullSync,
                      .fullUploadOrDownload, .reopen]
            state := st1 }
        | .error e =>
          { result := .error e
            calls := [.syncCollection, .closeForFullSync,
                      .fullUploadOrDownload, .reopen]
            state := st1 }
      else
        { result := .error (.exception
            ("could not sync status " ++ out.required.pbName ++ " - use fullSync"))
          calls := [.syncCollection]
          state := st1 }

/-- Embedding of the `sync` API action (core.py:102-104): `_sync` with
no explicit mode. -/
def sync (cfg : Config) (st : BridgeState) (beh : ColBehavior) : SyncRun :=
  _sync cfg st none beh

/-- Embedding of the `fullSync` API action (core.py:106-110): validates
the mode before touching anything, then delegates to `_sync`. -/
def fullSync (cfg : Config) (st : BridgeState) (mode : String)
    (beh : ColBehavior) : SyncRun :=
  if mode = "upload" ∨ mode = "download" then
    _sync cfg st (some mode) beh
  else
    { result := .error (.valueError "mode must be \x27upload\x27 or \x27download\x27")
      calls := []
      state := st }

/-- Embedding of the module-level `sync` function of `app/server.py`
(lines 113-119), the callback both background timers fire: it runs
`ankiconnect.sync()` under the lock and catches every `Exception`,
logging it; the return type has an `Except` layer so that swallowing
versus propagating is observable — the body maps every modelled
exception (all `Exception` subclasses) to `.ok`. -/
def server_sync (cfg : Config) (st : BridgeState) (beh : ColBehavior) :
    Except PyExc (BridgeState × List (LogLevel × String)) :=
  let r := _sync cfg st none beh
  match r.result with
  | .ok _ => .ok (r.state, [(LogLevel.info, "Auto-syncing...")])
  | .error e =>
      .ok (r.state,
        [(LogLevel.info, "Auto-syncing..."),
         (LogLevel.error, "Error syncing: " ++ e.message)])

/-- Structured result returned by `checkDatabase`. -/
structure CheckDbResult where
  problems : String
  ok : Bool
deriving DecidableEq, Repr

/-- Characters stripped by Python's default `str.strip()` (the ASCII
whitespace set; the code only ever meets these). -/
def pyIsSpace (c : Char) : Bool :=
  c = ' ' ∨ c = '\t' ∨ c = '\n' ∨ c = '\r' ∨ c = '\x0b' ∨ c = '\x0c'

/-- Python `s.strip()` with no argument: drop leading and trailing
whitespace characters. -/
def pyStrip (s : String) : String :=
  String.mk (((s.data.dropWhile pyIsSpace).reverse.dropWhile pyIsSpace).reverse)

/-- Accumulator-style worker for `pySplitNL`. -/
def splitNLAux : List Char → List Char → List String
  | [], acc => [String.mk acc.reverse]
  | c :: rest, acc =>
      if c = '\n' then String.mk acc.reverse :: splitNLAux rest []
      else splitNLAux rest (c :: acc)

/-- Python `s.split("\n")`: split on every newline, keeping empty
pieces (so `"".split("\n") == [""]` and a trailing newline yields a
trailing empty piece). -/
def pySplitNL (s : String) : List String := splitNLAux s.data []

/-- Embedding of the `checkDatabase` API action (core.py:114-124),
parameterised by what `fix_integrity` returned. It logs a pass/fail
headline, logs each line of `problems` whose `strip()` is non-empty at
info level when `ok` and at error level otherwise, and returns the
structured `{problems, ok}` value. The function is total: no input makes
it raise. -/
def checkDatabase (problems : String) (ok : Bool) :
    CheckDbResult × List (LogLevel × String) :=
  let headline := if ok then (LogLevel.info, "Database integrity check passed")
    else (LogLevel.error, "Database integrity check failed")
  let lineLogs := (pySplitNL problems).filterMap fun p =>
    if pyStrip p = "" then none
    else some ((if ok then LogLevel.info else LogLevel.error), p)
  (⟨problems, ok⟩, headline :: lineLogs)

/-- Embedding of `check_and_update_modified` (core.py:128-137).
`colMod` is `self.collection().mod` when the collection is open, `none`
when reading `.mod` raises `AttributeError`. The body then reads
`self.last_mod`: when no such attribute exists (the class only defines
`_last_mod`, and nothing ever assigns `last_mod` before this read), the
lookup raises `AttributeError`, which the surrounding `except
AttributeError` swallows, returning `False` without assigning anything. -/
def check_and_update_modified (st : BridgeState) (colMod : Option Int) :
    Bool × BridgeState :=
  match colMod with
  | none => (false, st)
  | some newMod =>
    match st.lastMod with
    | none => (false, st)
    | some lm => (decide (newMod ≠ lm), { st with lastMod := some newMod })

/-- Iterated calls of `check_and_update_modified`, one per guarded
request, each observing the collection's current `mod` value. -/
def runChecks (st : BridgeState) (ms : List (Option Int)) :
    List Bool × BridgeState :=
  match ms with
  | [] => ([], st)
  | m :: rest =>
    let r := check_and_update_modified st m
    let rr := runChecks r.2 rest
    (r.1 :: rr.1, rr.2)

/-- Primitive timer operations performed by the scheduler code in
`app/server.py` (`Timer.cancel` and `Timer(...).start()` per name). -/
inductive TimerEvent where
  | cancelDebounce
  | armDebounce
  | cancelPeriodic
  | armPeriodic
deriving DecidableEq, Repr

/-- Embedding of `schedule_sync_after_mod` (server.py:122-127): cancel
the existing debounce timer when one exists, then arm a fresh one. -/
def schedule_sync_after_mod (hasDebounceTimer : Bool) : List TimerEvent :=
  (if hasDebounceTimer then [TimerEvent.cancelDebounce] else [])
    ++ [TimerEvent.armDebounce]

/-- Embedding of `restart_periodic_sync` (server.py:130-140): cancel
the existing periodic timer when one exists, then arm a fresh one. -/
def restart_periodic_sync (hasPeriodicTimer : Bool) : List TimerEvent :=
  (if hasPeriodicTimer then [TimerEvent.cancelPeriodic] else [])
    ++ [TimerEvent.armPeriodic]

/-- Embedding of the post-dispatch trigger policy of `handle_request`
(server.py:96-103), for a request whose guarded section completed:
synchronization actions cancel any pending debounce timer and restart
the periodic timer; any other action schedules a debounce sync exactly
when the modification check reported a change. -/
def post_request_timer_policy (action : Option String)
    (collectionChanged hasDebounceTimer hasPeriodicTimer : Bool) :
    List TimerEvent :=
  if action = some "sync" ∨ action = some "fullSync" then
    (if hasDebounceTimer then [TimerEvent.cancelDebounce] else [])
      ++ restart_periodic_sync hasPeriodicTimer
  else if collectionChanged then
    schedule_sync_after_mod hasDebounceTimer
  else []

/-- Request payload as far as the bridge's `handler` inspects it:
`action` models `request.get("action")` (absent key gives `None`); the
remaining fields stand for everything else the payload may carry. -/
structure Request where
  action : Option String
  version : Nat
  origin : String
  params : List (String × String)

/-- Embedding of `AnkiConnectBridge.handler` (core.py:43-58),
parameterised by the external plugin pieces it invokes:
`formatSuccessReply` and `requestPermission` live in the bundled
plugin (`libs/ankiconnect`), and `superHandler` is the opaque dispatch
`super().handler`. When the action equals `"requestPermission"` the
dispatch layer is bypassed and a success reply is built from
`requestPermission(origin="", allowed=True)`. -/
def handler {Reply Perm : Type}
    (formatSuccessReply : Nat → Perm → Reply)
    (requestPermission : String → Bool → Perm)
    (apiVersion : Nat)
    (superHandler : Request → Reply)
    (req : Request) : Reply :=
  if req.action = some "requestPermission" then
    formatSuccessReply apiVersion (requestPermission "" true)
  else
    superHandler req

/-- Fold of successive `_sync` runs (each with its own mode and
collection behaviour), tracking only the bridge state. -/
def runSyncs (cfg : Config) (st : BridgeState)
    (steps : List (Option String × ColBehavior)) : BridgeState :=
  match steps with
  | [] => st
  | (m, b) :: rest => runSyncs cfg (_sync cfg st m b).state rest

/-- Whether a collection behaviour's negotiation response carries no
(truthy) new endpoint, either by raising or by returning an output whose
`new_endpoint` field is empty. -/
def carriesNoNewEndpoint (b : ColBehavior) : Bool :=
  match b.syncResult with
  | .error _ => true
  | .ok o => o.newEndpoint = ""

/-- C6: `fullSync(mode)` with a mode outside `{"upload","download"}`
raises `ValueError("mode must be 'upload' or 'download'")` at once,
invokes no collection-handle method, and leaves the bridge state
unchanged. -/
theorem fullSync_invalid_mode_rejected (cfg : Config) (st : BridgeState)
    (beh : ColBehavior) (mode : String)
    (h1 : mode ≠ "upload") (h2 : mode ≠ "download") :
    fullSync cfg st mode beh =
      { result := .error (.valueError "mode must be \x27upload\x27 or \x27download\x27")
        calls := []
        state := st } := by
  simp [fullSync, h1, h2]

/-- Witness for C6 at the concrete invalid mode `"sideways"`. -/
theorem fullSync_invalid_mode_rejected_witness :
    fullSync ⟨some "k", none⟩ initialBridge "sideways"
        ⟨.error (.syncError "net"), .ok ()⟩ =
      { result := .error (.valueError "mode must be \x27upload\x27 or \x27download\x27")
        calls := []
        state := initialBridge } :=
  fullSync_invalid_mode_rejected ⟨some "k", none⟩ initialBridge
    ⟨.error (.syncError "net"), .ok ()⟩ "sideways" (by decide) (by decide)

/-- C5: when negotiation returns `FULL_SYNC` and no explicit mode was
given, `sync()` raises the explicit "use fullSync" exception and the
only collection call made is the negotiation itself — no close, no
transfer, no reopen. -/
theorem sync_full_sync_required_raises (cfg : Config) (st : BridgeState)
    (beh : ColBehavior) (out : SyncOutput) (k : String)
    (hk : cfg.syncKey = some k)
    (hout : beh.syncResult = .ok out)
    (hreq : out.required = .FULL_SYNC) :
    (sync cfg st beh).result =
      .error (.exception "could not sync status FULL_SYNC - use fullSync") ∧
    (sync cfg st beh).calls = [ColCall.syncCollection] := by
  simp [sync, _sync, sync_auth, hk, hout, hreq, ChangesRequired.pbName]

/-- Witness for C5 at a concrete configuration and negotiation output. -/
theorem sync_full_sync_required_raises_witness :
    (sync ⟨some "k", none⟩ initialBridge
        ⟨.ok ⟨.FULL_SYNC, "", "", 5⟩, .ok ()⟩).result =
      .error (.exception "could not sync status FULL_SYNC - use fullSync") ∧
    (sync ⟨some "k", none⟩ initialBridge
        ⟨.ok ⟨.FULL_SYNC, "", "", 5⟩, .ok ()⟩).calls = [ColCall.syncCollection] :=
  sync_full_sync_required_raises ⟨some "k", none⟩ initialBridge
    ⟨.ok ⟨.FULL_SYNC, "", "", 5⟩, .ok ()⟩ ⟨.FULL_SYNC, "", "", 5⟩ "k"
    rfl rfl rfl

/-- C4: whenever a valid-mode `fullSync` reaches the transfer step
(negotiation succeeded with a non-accepted status), the recorded call
trace is exactly close, transfer, reopen after the negotiation — in
particular `reopen` occurs exactly once — and this holds whether the
full transfer returned normally or raised. -/
theorem fullSync_reopen_exactly_once (cfg : Config) (st : BridgeState)
    (beh : ColBehavior) (out : SyncOutput) (k : String) (mode : String)
    (hk : cfg.syncKey = some k)
    (hmode : mode = "upload" ∨ mode = "download")
    (hout : beh.syncResult = .ok out)
    (hreq : ¬(out.required = .NO_CHANGES ∨ out.required = .NORMAL_SYNC)) :
    (fullSync cfg st mode beh).calls =
      [ColCall.syncCollection, ColCall.closeForFullSync,
       ColCall.fullUploadOrDownload, ColCall.reopen] ∧
    (fullSync cfg st mode beh).calls.count ColCall.reopen = 1 := by
  rcases hmode with hm | hm <;> subst hm <;>
    rcases ht : beh.fullTransfer with u | e <;>
    simp [fullSync, _sync, sync_auth, hk, hout, hreq, ht, List.count_cons]

/-- Witness for C4 at a concrete input whose full transfer raises. -/
theorem fullSync_reopen_exactly_once_witness :
    (fullSync ⟨some "k", none⟩ initialBridge "upload"
        ⟨.ok ⟨.FULL_SYNC, "", "", 3⟩, .error (.syncError "net down")⟩).calls =
      [ColCall.syncCollection, ColCall.closeForFullSync,
       ColCall.fullUploadOrDownload, ColCall.reopen] ∧
    (fullSync ⟨some "k", none⟩ initialBridge "upload"
        ⟨.ok ⟨.FULL_SYNC, "", "", 3⟩, .error (.syncError "net down")⟩).calls.count
      ColCall.reopen = 1 :=
  fullSync_reopen_exactly_once ⟨some "k", none⟩ initialBridge
    ⟨.ok ⟨.FULL_SYNC, "", "", 3⟩, .error (.syncError "net down")⟩
    ⟨.FULL_SYNC, "", "", 3⟩ "k" "upload" rfl (Or.inl rfl) rfl (by decide)

/-- C3 counterexample: a `fullSync("upload")` whose negotiation returns
the accepted status `NO_CHANGES` performs no close, no transfer and no
reopen — the close/transfer/reopen sequence is not unconditional. -/
theorem fullSync_skips_transfer_on_no_changes :
    (fullSync ⟨some "k", none⟩ initialBridge "upload"
        ⟨.ok ⟨.NO_CHANGES, "", "", 0⟩, .ok ()⟩).calls = [ColCall.syncCollection] ∧
    ColCall.closeForFullSync ∉
      (fullSync ⟨some "k", none⟩ initialBridge "upload"
        ⟨.ok ⟨.NO_CHANGES, "", "", 0⟩, .ok ()⟩).calls ∧
    ColCall.reopen ∉
      (fullSync ⟨some "k", none⟩ initialBridge "upload"
        ⟨.ok ⟨.NO_CHANGES, "", "", 0⟩, .ok ()⟩).calls := by
  decide

/-- C3 as amended: for a valid-mode `fullSync` with a successful
negotiation, the close/transfer/reopen sequence runs exactly when the
negotiated status is outside the accepted set `{NO_CHANGES,
NORMAL_SYNC}`; on an accepted status the only collection call is the
negotiation. -/
theorem fullSync_transfer_iff_status_requires (cfg : Config)
    (st : BridgeState) (beh : ColBehavior) (out : SyncOutput) (k : String)
    (mode : String)
    (hk : cfg.syncKey = some k)
    (hmode : mode = "upload" ∨ mode = "download")
    (hout : beh.syncResult = .ok out) :
    ((fullSync cfg st mode beh).calls =
        [ColCall.syncCollection, ColCall.closeForFullSync,
         ColCall.fullUploadOrDownload, ColCall.reopen] ↔
      ¬(out.required = .NO_CHANGES ∨ out.required = .NORMAL_SYNC)) ∧
    ((out.required = .NO_CHANGES ∨ out.required = .NORMAL_SYNC) →
      (fullSync cfg st mode beh).calls = [ColCall.syncCollection]) := by
  rcases hmode with hm | hm <;> subst hm <;>
    rcases hr : out.required <;>
    rcases ht : beh.fullTransfer with u | e <;>
    simp [fullSync, _sync, sync_auth, hk, hout, hr, ht]

/-- Witness for the amended C3 at a concrete `NORMAL_SYNC` negotiation. -/
theorem fullSync_transfer_iff_status_requires_witness :
    ((fullSync ⟨some "k", none⟩ initialBridge "download"
        ⟨.ok ⟨.NORMAL_SYNC, "", "", 0⟩, .ok ()⟩).calls =
        [ColCall.syncCollection, ColCall.closeForFullSync,
         ColCall.fullUploadOrDownload, ColCall.reopen] ↔
      ¬(ChangesRequired.NORMAL_SYNC = ChangesRequired.NO_CHANGES ∨
        ChangesRequired.NORMAL_SYNC = ChangesRequired.NORMAL_SYNC)) ∧
    ((ChangesRequired.NORMAL_SYNC = ChangesRequired.NO_CHANGES ∨
        ChangesRequired.NORMAL_SYNC = ChangesRequired.NORMAL_SYNC) →
      (fullSync ⟨some "k", none⟩ initialBridge "download"
        ⟨.ok ⟨.NORMAL_SYNC, "", "", 0⟩, .ok ()⟩).calls = [ColCall.syncCollection]) :=
  fullSync_transfer_iff_status_requires ⟨some "k", none⟩ initialBridge
    ⟨.ok ⟨.NORMAL_SYNC, "", "", 0⟩, .ok ()⟩ ⟨.NORMAL_SYNC, "", "", 0⟩ "k"
    "download" rfl (Or.inr rfl) rfl

/-- Helper invariant for the modification tracker: starting from a
state with no `last_mod` attribute, every call in a run of
`check_and_update_modified` returns `false` and the attribute stays
absent. -/
lemma runChecks_all_false (ms : List (Option Int)) :
    ∀ st : BridgeState, st.lastMod = none →
      (runChecks st ms).1.all (fun b => !b) = true ∧
      (runChecks st ms).2.lastMod = none := by
  induction ms with
  | nil => intro st h; simpa [runChecks] using h
  | cons m rest ih =>
    intro st h
    cases m with
    | none =>
      have := ih st h
      simp [runChecks, check_and_update_modified, this.1, this.2]
    | some v =>
      have := ih st h
      simp [runChecks, check_and_update_modified, h, this.1, this.2]

/-- C1 (code evaluation): the modification tracker of the source never
reports a change. In the fresh bridge no attribute named `last_mod`
exists (the class defines only `_last_mod`), so every call to
`check_and_update_modified` dies in `AttributeError`, is swallowed, and
returns `False` — in particular for a collection whose `mod` moved from
the recorded `0` to `1`, where the claimed `after != before` comparison
is true. -/
theorem modification_tracker_never_reports_change (ms : List (Option Int)) :
    (runChecks initialBridge ms).1.all (fun b => !b) = true ∧
    (check_and_update_modified initialBridge (some 1)).1 = false ∧
    (1 : Int) ≠ 0 := by
  refine ⟨(runChecks_all_false ms initialBridge rfl).1, by decide, by decide⟩

/-- C2 counterexample: a background-scheduler-triggered sync that hits
`FULL_SYNC_REQUIRED` raises a plain `Exception` — not a
synchronization-class (network/protocol) failure — and the scheduler
wrapper still swallows it: `server_sync` returns `.ok` instead of
propagating. -/
theorem background_sync_swallows_nonsync_error :
    (_sync ⟨some "k", none⟩ initialBridge none
        ⟨.ok ⟨.FULL_SYNC, "", "", 0⟩, .ok ()⟩).result =
      .error (.exception "could not sync status FULL_SYNC - use fullSync") ∧
    PyExc.isSyncClass
      (.exception "could not sync status FULL_SYNC - use fullSync") = false ∧
    (server_sync ⟨some "k", none⟩ initialBridge
        ⟨.ok ⟨.FULL_SYNC, "", "", 0⟩, .ok ()⟩).isOk = true :=
  ⟨rfl, rfl, rfl⟩

/-- C2 as amended: the background sync wrapper catches every
`Exception`-class error, not only synchronization-class failures — for
any configuration, state and collection behaviour it returns `.ok`
(never propagates), and whenever the inner `sync()` raised `e` the log
records `"Error syncing: ..."` with `e`'s message. -/
theorem background_sync_swallows_every_error (cfg : Config)
    (st : BridgeState) (beh : ColBehavior) :
    (server_sync cfg st beh).isOk = true ∧
    (∀ e : PyExc, (_sync cfg st none beh).result = .error e →
      server_sync cfg st beh = .ok ((_sync cfg st none beh).state,
        [(LogLevel.info, "Auto-syncing..."),
         (LogLevel.error, "Error syncing: " ++ e.message)])) := by
  constructor
  · unfold server_sync
    rcases h : (_sync cfg st none beh).result with u | e <;>
      simp [h, Except.isOk, Except.toBool]
  · intro e he
    unfold server_sync
    simp [he]

/-- Witness for the amended C2 at a concrete failing behaviour. -/
theorem background_sync_swallows_every_error_witness :
    (server_sync ⟨some "k", none⟩ initialBridge
        ⟨.ok ⟨.FULL_SYNC, "", "", 0⟩, .ok ()⟩).isOk = true ∧
    server_sync ⟨some "k", none⟩ initialBridge
        ⟨.ok ⟨.FULL_SYNC, "", "", 0⟩, .ok ()⟩ =
      .ok (initialBridge,
        [(LogLevel.info, "Auto-syncing..."),
         (LogLevel.error,
          "Error syncing: could not sync status FULL_SYNC - use fullSync")]) := by
  have h := background_sync_swallows_every_error ⟨some "k", none⟩ initialBridge
    ⟨.ok ⟨.FULL_SYNC, "", "", 0⟩, .ok ()⟩
  refine ⟨h.1, ?_⟩
  have h2 := h.2 (.exception "could not sync status FULL_SYNC - use fullSync") rfl
  rw [h2]
  rfl

/-- C7: after a guarded operation whose action is `sync` or `fullSync`,
any pending debounce timer is cancelled, a fresh periodic timer is
armed, and the emitted timer events do not depend on whether the
modification check reported a change. -/
theorem explicit_sync_resets_timers (action : Option String)
    (collectionChanged hasDebounceTimer hasPeriodicTimer : Bool)
    (h : action = some "sync" ∨ action = some "fullSync") :
    (hasDebounceTimer = true →
      TimerEvent.cancelDebounce ∈
        post_request_timer_policy action collectionChanged hasDebounceTimer
          hasPeriodicTimer) ∧
    TimerEvent.armPeriodic ∈
      post_request_timer_policy action collectionChanged hasDebounceTimer
        hasPeriodicTimer ∧
    post_request_timer_policy action collectionChanged hasDebounceTimer
        hasPeriodicTimer =
      post_request_timer_policy action (!collectionChanged) hasDebounceTimer
        hasPeriodicTimer := by
  rcases h with h | h <;> subst h <;>
    cases hasDebounceTimer <;> cases hasPeriodicTimer <;>
    simp [post_request_timer_policy, restart_periodic_sync]

/-- Witness for C7: a `fullSync` request with both timers pending and no
detected modification. -/
theorem explicit_sync_resets_timers_witness :
    (true = true →
      TimerEvent.cancelDebounce ∈
        post_request_timer_policy (some "fullSync") false true true) ∧
    TimerEvent.armPeriodic ∈
      post_request_timer_policy (some "fullSync") false true true ∧
    post_request_timer_policy (some "fullSync") false true true =
      post_request_timer_policy (some "fullSync") (!false) true true :=
  explicit_sync_resets_timers (some "fullSync") false true true (Or.inr rfl)

/-- C9 counterexample: `checkDatabase` on `problems = " "` (one
whitespace-only, hence non-empty, line) with `ok = true` logs that line
at no level at all — `problem.strip()` filters it out — so "each
non-empty line is logged" fails as stated. -/
theorem checkDatabase_blank_line_not_logged :
    " " ∈ pySplitNL " " ∧ " " ≠ "" ∧
    (LogLevel.info, " ") ∉ (checkDatabase " " true).2 ∧
    (LogLevel.error, " ") ∉ (checkDatabase " " true).2 := by
  decide

/-- C9 as amended: `checkDatabase` always returns the structured
`{problems, ok}` value (it is a total function — no input raises); on a
clean store the result is `{problems: "", ok: true}` with only the
pass headline logged; and every line of `problems` that is non-blank
(non-empty after stripping whitespace) is logged at info level when `ok`
and at error level otherwise. -/
theorem checkDatabase_structured_result (problems : String) (ok : Bool) :
    (checkDatabase problems ok).1 = ⟨problems, ok⟩ ∧
    checkDatabase "" true =
      (⟨"", true⟩, [(LogLevel.info, "Database integrity check passed")]) ∧
    ∀ line ∈ pySplitNL problems, pyStrip line ≠ "" →
      ((if ok then LogLevel.info else LogLevel.error), line) ∈
        (checkDatabase problems ok).2 := by
  refine ⟨rfl, by decide, ?_⟩
  intro line hline hstrip
  simp only [checkDatabase, List.mem_cons]
  right
  exact List.mem_filterMap.mpr ⟨line, hline, by simp [hstrip]⟩

/-- Witness for the amended C9: a store with one real problem line. -/
theorem checkDatabase_structured_result_witness :
    (checkDatabase "card 7 is orphaned" false).1 = ⟨"card 7 is orphaned", false⟩ ∧
    ((if false then LogLevel.info else LogLevel.error), "card 7 is orphaned") ∈
      (checkDatabase "card 7 is orphaned" false).2 :=
  ⟨(checkDatabase_structured_result "card 7 is orphaned" false).1,
   (checkDatabase_structured_result "card 7 is orphaned" false).2.2
     "card 7 is orphaned" (by decide) (by decide)⟩

/-- C10: a request whose action is `"requestPermission"` bypasses the
opaque dispatch layer entirely: `handler` returns the success reply
built from `requestPermission("", allowed := True)` — the same reply for
any dispatch function, origin and request contents. -/
theorem handler_requestPermission_bypass {Reply Perm : Type}
    (formatSuccessReply : Nat → Perm → Reply)
    (requestPermission : String → Bool → Perm)
    (apiVersion : Nat)
    (superHandler superHandler2 : Request → Reply)
    (req req2 : Request)
    (h : req.action = some "requestPermission")
    (h2 : req2.action = some "requestPermission") :
    handler formatSuccessReply requestPermission apiVersion superHandler req =
      formatSuccessReply apiVersion (requestPermission "" true) ∧
    handler formatSuccessReply requestPermission apiVersion superHandler req =
      handler formatSuccessReply requestPermission apiVersion superHandler2 req2 := by
  simp [handler, h, h2]

/-- Witness for C10 at concrete pieces: permission is granted no matter
the origin, the parameters or the dispatch function. -/
theorem handler_requestPermission_bypass_witness :
    handler (fun (_ : Nat) (p : String) => p)
        (fun (_ : String) (a : Bool) => if a then "granted" else "denied") 6
        (fun _ => "dispatched")
        ⟨some "requestPermission", 6, "https://another-origin", [("deck", "x")]⟩ =
      (fun (_ : Nat) (p : String) => p) 6
        ((fun (_ : String) (a : Bool) => if a then "granted" else "denied") "" true) ∧
    handler (fun (_ : Nat) (p : String) => p)
        (fun (_ : String) (a : Bool) => if a then "granted" else "denied") 6
        (fun _ => "dispatched")
        ⟨some "requestPermission", 6, "https://another-origin", [("deck", "x")]⟩ =
      handler (fun (_ : Nat) (p : String) => p)
        (fun (_ : String) (a : Bool) => if a then "granted" else "denied") 6
        (fun _ => "other dispatch")
        ⟨some "requestPermission", 0, "", []⟩ :=
  handler_requestPermission_bypass (fun (_ : Nat) (p : String) => p)
    (fun (_ : String) (a : Bool) => if a then "granted" else "denied") 6
    (fun _ => "dispatched") (fun _ => "other dispatch")
    ⟨some "requestPermission", 6, "https://another-origin", [("deck", "x")]⟩
    ⟨some "requestPermission", 0, "", []⟩ rfl rfl

/-- Helper: when the negotiation output carries a truthy new endpoint,
`_sync` records it as the sticky redirect, whatever the status, mode and
transfer outcome. -/
lemma sync_state_of_new_endpoint (cfg : Config) (st : BridgeState)
    (mode : Option String) (beh : ColBehavior) (out : SyncOutput) (k : String)
    (hk : cfg.syncKey = some k) (hout : beh.syncResult = .ok out)
    (hne : out.newEndpoint ≠ "") :
    (_sync cfg st mode beh).state =
      { st with currentSyncUrl := some out.newEndpoint } := by
  by_cases hm : mode = some "download" ∨ mode = some "upload" <;>
    rcases ht : beh.fullTransfer with u | e <;>
    rcases hr : out.required <;>
    simp [_sync, sync_auth, hk, hout, hne, ht, hr, hm]

/-- Helper: a `_sync` run whose negotiation carries no truthy new
endpoint leaves the bridge state untouched. -/
lemma sync_state_preserved (cfg : Config) (st : BridgeState)
    (mode : Option String) (beh : ColBehavior)
    (h : carriesNoNewEndpoint beh = true) :
    (_sync cfg st mode beh).state = st := by
  rcases hk : cfg.syncKey with _ | k
  · simp [_sync, sync_auth, hk]
  · rcases hs : beh.syncResult with e | o
    · simp [_sync, sync_auth, hk, hs]
    · have hne : o.newEndpoint = "" := by
        simpa [carriesNoNewEndpoint, hs] using h
      by_cases hm : mode = some "download" ∨ mode = some "upload" <;>
        rcases ht : beh.fullTransfer with u | e2 <;>
        rcases hr : o.required <;>
        simp [_sync, sync_auth, hk, hs, hne, ht, hr, hm]

/-- Helper: a whole sequence of `_sync` runs with no new endpoint keeps
the bridge state, in particular the sticky redirect, unchanged. -/
lemma runSyncs_preserved (cfg : Config)
    (steps : List (Option String × ColBehavior)) :
    ∀ st : BridgeState, (∀ p ∈ steps, carriesNoNewEndpoint p.2 = true) →
      runSyncs cfg st steps = st := by
  induction steps with
  | nil => intro st _; rfl
  | cons p rest ih =>
    intro st h
    rcases p with ⟨m, b⟩
    have hp := h (m, b) (List.mem_cons_self _ _)
    have hrest := fun q hq => h q (List.mem_cons_of_mem _ hq)
    calc runSyncs cfg st ((m, b) :: rest)
        = runSyncs cfg (_sync cfg st m b).state rest := rfl
      _ = (_sync cfg st m b).state := ih _ hrest
      _ = st := sync_state_preserved cfg st m b hp

/-- C8: once a negotiation response carries a (truthy) new endpoint,
that endpoint is the sticky redirect: it survives any number of later
sync runs that bring no new endpoint, every `sync_auth` construction in
that span uses it in place of the configured endpoint, and only a later
response carrying a new endpoint replaces it. -/
theorem sticky_redirect (cfg : Config) (st : BridgeState)
    (mode : Option String) (beh : ColBehavior) (out : SyncOutput) (k : String)
    (steps : List (Option String × ColBehavior))
    (hk : cfg.syncKey = some k)
    (hout : beh.syncResult = .ok out)
    (hne : out.newEndpoint ≠ "")
    (hsteps : ∀ p ∈ steps, carriesNoNewEndpoint p.2 = true) :
    (_sync cfg st mode beh).state.currentSyncUrl = some out.newEndpoint ∧
    (runSyncs cfg (_sync cfg st mode beh).state steps).currentSyncUrl =
      some out.newEndpoint ∧
    (∀ a : SyncAuth,
      sync_auth cfg (runSyncs cfg (_sync cfg st mode beh).state steps) = .ok a →
        a.endpoint = some out.newEndpoint) ∧
    (∀ (mode2 : Option String) (beh2 : ColBehavior) (out2 : SyncOutput),
      beh2.syncResult = .ok out2 → out2.newEndpoint ≠ "" →
        (_sync cfg (runSyncs cfg (_sync cfg st mode beh).state steps) mode2
            beh2).state.currentSyncUrl = some out2.newEndpoint) := by
  have h1 : (_sync cfg st mode beh).state =
      { st with currentSyncUrl := some out.newEndpoint } :=
    sync_state_of_new_endpoint cfg st mode beh out k hk hout hne
  have h2 : runSyncs cfg (_sync cfg st mode beh).state steps =
      (_sync cfg st mode beh).state :=
    runSyncs_preserved cfg steps _ hsteps
  refine ⟨by rw [h1], by rw [h2, h1], ?_, ?_⟩
  · intro a ha
    rw [h2, h1] at ha
    simp [sync_auth, hk, pyOrStr, hne] at ha
    rw [← ha]
  · intro mode2 beh2 out2 hout2 hne2
    rw [sync_state_of_new_endpoint cfg _ mode2 beh2 out2 k hk hout2 hne2]

/-- Witness for C8: a redirect to a concrete new endpoint survives a
later negotiation that carries none. -/
theorem sticky_redirect_witness :
    (_sync ⟨some "k", some "https://configured"⟩ initialBridge none
        ⟨.ok ⟨.NO_CHANGES, "https://redirected", "", 0⟩, .ok ()⟩).state.currentSyncUrl =
      some "https://redirected" ∧
    (runSyncs ⟨some "k", some "https://configured"⟩
        (_sync ⟨some "k", some "https://configured"⟩ initialBridge none
          ⟨.ok ⟨.NO_CHANGES, "https://redirected", "", 0⟩, .ok ()⟩).state
        [(none, ⟨.ok ⟨.NO_CHANGES, "", "", 0⟩, .ok ()⟩)]).currentSyncUrl =
      some "https://redirected" :=
  ⟨(sticky_redirect ⟨some "k", some "https://configured"⟩ initialBridge none
      ⟨.ok ⟨.NO_CHANGES, "https://redirected", "", 0⟩, .ok ()⟩
      ⟨.NO_CHANGES, "https://redirected", "", 0⟩ "k"
      [(none, ⟨.ok ⟨.NO_CHANGES, "", "", 0⟩, .ok ()⟩)] rfl rfl (by decide)
      (by intro p hp; rcases List.mem_singleton.mp hp with rfl; rfl)).1,
   (sticky_redirect ⟨some "k", some "https://configured"⟩ initialBridge none
      ⟨.ok ⟨.NO_CHANGES, "https://redirected", "", 0⟩, .ok ()⟩
      ⟨.NO_CHANGES, "https://redirected", "", 0⟩ "k"
      [(none, ⟨.ok ⟨.NO_CHANGES, "", "", 0⟩, .ok ()⟩)] rfl rfl (by decide)
      (by intro p hp; rcases List.mem_singleton.mp hp with rfl; rfl)).2.1⟩

end App
